import Mathlib

/-!
Shallow embedding of the WattAI cost model (`wattai.py`) and the
cheapest-option scan of the presentation layer (`wattai_app.py`).

Python floats are embedded as exact rationals (`ℚ`): the model performs only
plain multiplication, division by 1000 and addition, and applies no rounding.
The GPU catalog, a Python `dict` with insertion order, is embedded as an
association list; the module-level `GPU_DATABASE` global becomes an explicit
`db` parameter of the `_db` functions, specialised to the concrete catalog by
the source-named wrappers.  Raised exceptions become `Except` errors; the
`GPUNotFoundError` message is built from the offending name and the list of
catalog keys, so the error constructor carries those two values.
-/

/-- One record of the GPU database: power draw in watts and cloud
hourly price in USD. -/
structure GPURecord where
  watts : ℚ
  hourly_cost_usd : ℚ
  deriving DecidableEq, Repr

/-- Constant `DEFAULT_ELECTRICITY_COST_USD = 0.10` from `wattai.py`. -/
def DEFAULT_ELECTRICITY_COST_USD : ℚ := 1/10

/-- Constant `WATTS_TO_KWH_CONVERSION = 1000.0` from `wattai.py`. -/
def WATTS_TO_KWH_CONVERSION : ℚ := 1000

/-- The static GPU catalog `GPU_DATABASE` from `wattai.py`, in insertion
order. -/
def GPU_DATABASE : List (String × GPURecord) :=
  [("RTX 3090", ⟨350, 9/5⟩),
   ("A100", ⟨400, 7/2⟩),
   ("RTX 4090", ⟨450, 11/5⟩)]

/-- The two exception classes of `wattai.py`.  `GPUNotFoundError` carries the
offending name and the catalog key list (the Python message string is the
f-string built from exactly these two values); `InvalidInputError` carries its
message. -/
inductive WattError where
  | GPUNotFoundError (gpu_name : String) (available : List String)
  | InvalidInputError (msg : String)
  deriving DecidableEq, Repr

/-- Dictionary lookup `GPU_DATABASE[gpu_name]` on the association list; the
Python membership test `gpu_name not in GPU_DATABASE` is `lookup_gpu … = none`. -/
def lookup_gpu (db : List (String × GPURecord)) (gpu_name : String) :
    Option GPURecord :=
  (db.find? (fun e => e.1 == gpu_name)).map (fun e => e.2)

/-- `validate_inputs` from `wattai.py`: rejects a negative electricity cost,
then negative hours. -/
def validate_inputs (electricity_cost_usd hours : ℚ) : Except WattError Unit :=
  if electricity_cost_usd < 0 then
    Except.error (WattError.InvalidInputError "Electricity cost cannot be negative")
  else if hours < 0 then
    Except.error (WattError.InvalidInputError "Hours cannot be negative")
  else
    Except.ok ()

/-- The result dictionary of `calculate_cloud_cost`. -/
structure CloudCostBreakdown where
  energy_kwh : ℚ
  energy_cost_usd : ℚ
  compute_cost_usd : ℚ
  total_cost_usd : ℚ
  deriving DecidableEq, Repr

/-- The result dictionary of `calculate_local_cost` (no compute-cost field). -/
structure LocalCostBreakdown where
  energy_kwh : ℚ
  energy_cost_usd : ℚ
  total_cost_usd : ℚ
  deriving DecidableEq, Repr

/-- `calculate_cloud_cost` from `wattai.py`, with the global `GPU_DATABASE`
made an explicit parameter `db`. -/
def calculate_cloud_cost_db (db : List (String × GPURecord))
    (electricity_cost_usd : ℚ) (gpu_name : String) (hours : ℚ) :
    Except WattError CloudCostBreakdown :=
  match validate_inputs electricity_cost_usd hours with
  | Except.error e => Except.error e
  | Except.ok _ =>
    match lookup_gpu db gpu_name with
    | none =>
        Except.error (WattError.GPUNotFoundError gpu_name (db.map (fun e => e.1)))
    | some gpu =>
        let energy_kwh := gpu.watts * hours / WATTS_TO_KWH_CONVERSION
        let energy_cost := energy_kwh * electricity_cost_usd
        let compute_cost := gpu.hourly_cost_usd * hours
        let total_cost := energy_cost + compute_cost
        Except.ok ⟨energy_kwh, energy_cost, compute_cost, total_cost⟩

/-- `calculate_local_cost` from `wattai.py`, with the global `GPU_DATABASE`
made an explicit parameter `db`. -/
def calculate_local_cost_db (db : List (String × GPURecord))
    (electricity_cost_usd : ℚ) (gpu_name : String) (hours : ℚ) :
    Except WattError LocalCostBreakdown :=
  match validate_inputs electricity_cost_usd hours with
  | Except.error e => Except.error e
  | Except.ok _ =>
    match lookup_gpu db gpu_name with
    | none =>
        Except.error (WattError.GPUNotFoundError gpu_name (db.map (fun e => e.1)))
    | some gpu =>
        let energy_kwh := gpu.watts * hours / WATTS_TO_KWH_CONVERSION
        let energy_cost := energy_kwh * electricity_cost_usd
        Except.ok ⟨energy_kwh, energy_cost, energy_cost⟩

/-- `calculate_cloud_cost` on the concrete catalog, as in the source. -/
def calculate_cloud_cost (electricity_cost_usd : ℚ) (gpu_name : String)
    (hours : ℚ) : Except WattError CloudCostBreakdown :=
  calculate_cloud_cost_db GPU_DATABASE electricity_cost_usd gpu_name hours

/-- `calculate_local_cost` on the concrete catalog, as in the source. -/
def calculate_local_cost (electricity_cost_usd : ℚ) (gpu_name : String)
    (hours : ℚ) : Except WattError LocalCostBreakdown :=
  calculate_local_cost_db GPU_DATABASE electricity_cost_usd gpu_name hours

/-- The cloud option label of `find_cheapest_option` in `wattai_app.py`. -/
def cloud_label (gpu_name : String) : String := "☁️ Cloud - " ++ gpu_name

/-- The local option label of `find_cheapest_option` in `wattai_app.py`. -/
def local_label (gpu_name : String) : String := "🖥 Local - " ++ gpu_name

/-- One comparison step of the running minimum in `find_cheapest_option`:
take the candidate when there is no current cheapest yet, or when its price is
strictly below the current cheapest price. -/
def consider_option (acc : Option (String × ℚ)) (o : String × ℚ) :
    Option (String × ℚ) :=
  match acc with
  | none => some o
  | some best => if o.2 < best.2 then some o else acc

/-- One loop iteration of `find_cheapest_option`: compute both costs of the
entry; on success compare the cloud option, then the local option, against the
running minimum; on a raised error skip the entry (`continue`). -/
def scan_step (db : List (String × GPURecord)) (electricity_cost hours : ℚ)
    (acc : Option (String × ℚ)) (e : String × GPURecord) :
    Option (String × ℚ) :=
  match calculate_cloud_cost_db db electricity_cost e.1 hours,
        calculate_local_cost_db db electricity_cost e.1 hours with
  | Except.ok cloud, Except.ok loc =>
      consider_option
        (consider_option acc (cloud_label e.1, cloud.total_cost_usd))
        (local_label e.1, loc.total_cost_usd)
  | _, _ => acc

/-- `find_cheapest_option` from `wattai_app.py`, with the global `GPU_DATABASE`
made an explicit parameter `db`: return `none` on an empty catalog, otherwise
fold the per-entry scan over the catalog in iteration order (a final `none`,
when every entry was skipped, is returned as `none`). -/
def find_cheapest_option_db (db : List (String × GPURecord))
    (electricity_cost hours : ℚ) : Option (String × ℚ) :=
  if db.isEmpty then none
  else db.foldl (scan_step db electricity_cost hours) none

/-- `find_cheapest_option` on the concrete catalog, as in the source. -/
def find_cheapest_option (electricity_cost hours : ℚ) :
    Option (String × ℚ) :=
  find_cheapest_option_db GPU_DATABASE electricity_cost hours

/-- The (label, total price) options one catalog entry contributes to the
scan, cloud before local; an entry whose computation fails contributes
nothing. -/
def entry_options (db : List (String × GPURecord)) (electricity_cost hours : ℚ)
    (e : String × GPURecord) : List (String × ℚ) :=
  match calculate_cloud_cost_db db electricity_cost e.1 hours,
        calculate_local_cost_db db electricity_cost e.1 hours with
  | Except.ok cloud, Except.ok loc =>
      [(cloud_label e.1, cloud.total_cost_usd),
       (local_label e.1, loc.total_cost_usd)]
  | _, _ => []

/-- The flat list of (label, total price) options the scan examines, in
encounter order: catalog iteration order, cloud before local per GPU.  The
first parameter is the full catalog used for lookups, the second the remaining
entries to iterate. -/
def scan_options_aux (db : List (String × GPURecord))
    (rem : List (String × GPURecord)) (electricity_cost hours : ℚ) :
    List (String × ℚ) :=
  match rem with
  | [] => []
  | e :: rest =>
      entry_options db electricity_cost hours e ++
        scan_options_aux db rest electricity_cost hours

/-- All (mode, GPU) options of the scan over the whole catalog, in encounter
order. -/
def scan_options (db : List (String × GPURecord))
    (electricity_cost hours : ℚ) : List (String × ℚ) :=
  scan_options_aux db db electricity_cost hours

/-! ### Helper lemmas -/

/-- Validation succeeds exactly on non-negative inputs. -/
theorem validate_inputs_ok {p h : ℚ} (hp : 0 ≤ p) (hh : 0 ≤ h) :
    validate_inputs p h = Except.ok () := by
  unfold validate_inputs
  rw [if_neg (not_lt.mpr hp), if_neg (not_lt.mpr hh)]

/-- On a catalog hit with valid inputs, the cloud computation succeeds with the
literal breakdown of the source formulas. -/
theorem calculate_cloud_cost_db_ok {db : List (String × GPURecord)}
    {p h : ℚ} {g : String} {rec : GPURecord}
    (hg : lookup_gpu db g = some rec) (hp : 0 ≤ p) (hh : 0 ≤ h) :
    calculate_cloud_cost_db db p g h = Except.ok
      ⟨rec.watts * h / 1000, rec.watts * h / 1000 * p, rec.hourly_cost_usd * h,
       rec.watts * h / 1000 * p + rec.hourly_cost_usd * h⟩ := by
  unfold calculate_cloud_cost_db
  rw [validate_inputs_ok hp hh, hg]
  rfl

/-- On a catalog hit with valid inputs, the local computation succeeds with the
literal breakdown of the source formulas. -/
theorem calculate_local_cost_db_ok {db : List (String × GPURecord)}
    {p h : ℚ} {g : String} {rec : GPURecord}
    (hg : lookup_gpu db g = some rec) (hp : 0 ≤ p) (hh : 0 ≤ h) :
    calculate_local_cost_db db p g h = Except.ok
      ⟨rec.watts * h / 1000, rec.watts * h / 1000 * p,
       rec.watts * h / 1000 * p⟩ := by
  unfold calculate_local_cost_db
  rw [validate_inputs_ok hp hh, hg]
  rfl

/-! ### Claims -/

/-- Claim C1: for every GPU id in the catalog, every electricity price ≥ 0 and
every hours ≥ 0, the cost breakdown returned by `calculate_cloud_cost`
satisfies `energy_kwh = watts * hours / 1000`,
`energy_cost_usd = energy_kwh * price`, `compute_cost_usd = hourly_cost * hours`
and `total_cost_usd = energy_cost_usd + compute_cost_usd`. -/
theorem claim_C1 (p h : ℚ) (g : String) (rec : GPURecord)
    (hg : lookup_gpu GPU_DATABASE g = some rec) (hp : 0 ≤ p) (hh : 0 ≤ h) :
    ∃ bd, calculate_cloud_cost p g h = Except.ok bd ∧
      bd.energy_kwh = rec.watts * h / 1000 ∧
      bd.energy_cost_usd = bd.energy_kwh * p ∧
      bd.compute_cost_usd = rec.hourly_cost_usd * h ∧
      bd.total_cost_usd = bd.energy_cost_usd + bd.compute_cost_usd :=
  ⟨_, calculate_cloud_cost_db_ok hg hp hh, rfl, rfl, rfl, rfl⟩

/-- Witness for C1 at the catalog entry "A100", price 0.10, 2 hours. -/
theorem claim_C1_witness :
    ∃ bd, calculate_cloud_cost (1/10) "A100" 2 = Except.ok bd ∧
      bd.energy_kwh = (400 : ℚ) * 2 / 1000 ∧
      bd.energy_cost_usd = bd.energy_kwh * (1/10) ∧
      bd.compute_cost_usd = ((7:ℚ)/2) * 2 ∧
      bd.total_cost_usd = bd.energy_cost_usd + bd.compute_cost_usd :=
  claim_C1 (1/10) 2 "A100" ⟨400, 7/2⟩ rfl (by norm_num) (by norm_num)

/-- Claim C2: on the same valid inputs, `calculate_local_cost` returns the same
`energy_kwh` and `energy_cost_usd` as `calculate_cloud_cost`, and its total
equals its energy cost (no compute-cost component). -/
theorem claim_C2 (p h : ℚ) (g : String) (rec : GPURecord)
    (hg : lookup_gpu GPU_DATABASE g = some rec) (hp : 0 ≤ p) (hh : 0 ≤ h) :
    ∃ c l, calculate_cloud_cost p g h = Except.ok c ∧
      calculate_local_cost p g h = Except.ok l ∧
      l.energy_kwh = c.energy_kwh ∧
      l.energy_cost_usd = c.energy_cost_usd ∧
      l.total_cost_usd = l.energy_cost_usd :=
  ⟨_, _, calculate_cloud_cost_db_ok hg hp hh,
    calculate_local_cost_db_ok hg hp hh, rfl, rfl, rfl⟩

/-- Witness for C2 at the catalog entry "RTX 4090", price 0.25, 4 hours. -/
theorem claim_C2_witness :
    ∃ c l, calculate_cloud_cost (1/4) "RTX 4090" 4 = Except.ok c ∧
      calculate_local_cost (1/4) "RTX 4090" 4 = Except.ok l ∧
      l.energy_kwh = c.energy_kwh ∧
      l.energy_cost_usd = c.energy_cost_usd ∧
      l.total_cost_usd = l.energy_cost_usd :=
  claim_C2 (1/4) 4 "RTX 4090" ⟨450, 11/5⟩ rfl (by norm_num) (by norm_num)

/-- Claim C3: for a catalog GPU with non-negative cloud hourly price and valid
inputs, cloud total = local total + hourly_cost * hours, hence cloud total ≥
local total. -/
theorem claim_C3 (p h : ℚ) (g : String) (rec : GPURecord)
    (hg : lookup_gpu GPU_DATABASE g = some rec)
    (hr : 0 ≤ rec.hourly_cost_usd) (hp : 0 ≤ p) (hh : 0 ≤ h) :
    ∃ c l, calculate_cloud_cost p g h = Except.ok c ∧
      calculate_local_cost p g h = Except.ok l ∧
      c.total_cost_usd = l.total_cost_usd + rec.hourly_cost_usd * h ∧
      l.total_cost_usd ≤ c.total_cost_usd := by
  refine ⟨_, _, calculate_cloud_cost_db_ok hg hp hh,
    calculate_local_cost_db_ok hg hp hh, rfl, ?_⟩
  exact le_add_of_nonneg_right (mul_nonneg hr hh)

/-- Witness for C3 at the catalog entry "RTX 3090", price 0.10, 3 hours. -/
theorem claim_C3_witness :
    ∃ c l, calculate_cloud_cost (1/10) "RTX 3090" 3 = Except.ok c ∧
      calculate_local_cost (1/10) "RTX 3090" 3 = Except.ok l ∧
      c.total_cost_usd = l.total_cost_usd + ((9:ℚ)/5) * 3 ∧
      l.total_cost_usd ≤ c.total_cost_usd :=
  claim_C3 (1/10) 3 "RTX 3090" ⟨350, 9/5⟩ rfl (by norm_num) (by norm_num)
    (by norm_num)

/-- Claim C7: at zero hours the total cost of both modes is zero, for any
catalog GPU and any non-negative price. -/
theorem claim_C7 (p : ℚ) (g : String) (rec : GPURecord)
    (hg : lookup_gpu GPU_DATABASE g = some rec) (hp : 0 ≤ p) :
    ∃ c l, calculate_cloud_cost p g 0 = Except.ok c ∧
      calculate_local_cost p g 0 = Except.ok l ∧
      c.total_cost_usd = 0 ∧ l.total_cost_usd = 0 := by
  refine ⟨_, _, calculate_cloud_cost_db_ok hg hp le_rfl,
    calculate_local_cost_db_ok hg hp le_rfl, ?_, ?_⟩
  · show rec.watts * 0 / 1000 * p + rec.hourly_cost_usd * 0 = 0
    ring
  · show rec.watts * 0 / 1000 * p = 0
    ring

/-- Witness for C7 at the catalog entry "A100", price 0.10. -/
theorem claim_C7_witness :
    ∃ c l, calculate_cloud_cost (1/10) "A100" 0 = Except.ok c ∧
      calculate_local_cost (1/10) "A100" 0 = Except.ok l ∧
      c.total_cost_usd = 0 ∧ l.total_cost_usd = 0 :=
  claim_C7 (1/10) "A100" ⟨400, 7/2⟩ rfl (by norm_num)

/-- Claim C8: the `energy_kwh` field of the cloud breakdown is linear in
hours: its value at h hours equals its value at 1 hour times h. -/
theorem claim_C8 (p h : ℚ) (g : String) (rec : GPURecord)
    (hg : lookup_gpu GPU_DATABASE g = some rec) (hp : 0 ≤ p) (hh : 0 ≤ h) :
    ∃ bd bd1, calculate_cloud_cost p g h = Except.ok bd ∧
      calculate_cloud_cost p g 1 = Except.ok bd1 ∧
      bd.energy_kwh = bd1.energy_kwh * h := by
  refine ⟨_, _, calculate_cloud_cost_db_ok hg hp hh,
    calculate_cloud_cost_db_ok hg hp zero_le_one, ?_⟩
  show rec.watts * h / 1000 = rec.watts * 1 / 1000 * h
  ring

/-- Witness for C8 at the catalog entry "RTX 3090", price 0.10, 7 hours. -/
theorem claim_C8_witness :
    ∃ bd bd1, calculate_cloud_cost (1/10) "RTX 3090" 7 = Except.ok bd ∧
      calculate_cloud_cost (1/10) "RTX 3090" 1 = Except.ok bd1 ∧
      bd.energy_kwh = bd1.energy_kwh * 7 :=
  claim_C8 (1/10) 7 "RTX 3090" ⟨350, 9/5⟩ rfl (by norm_num) (by norm_num)

/-- Claim C9: with the catalog entry "RTX 3090" (350 W, 1.80 USD/h), price
0.10 and 10 hours, the computations return exactly energy_kwh = 3.5 = 7/2,
energy_cost_usd = 0.35 = 7/20, compute_cost_usd = 18.0, cloud total
18.35 = 367/20 and local total 0.35 = 7/20. -/
theorem claim_C9 :
    calculate_cloud_cost (1/10) "RTX 3090" 10 =
      Except.ok ⟨7/2, 7/20, 18, 367/20⟩ ∧
    calculate_local_cost (1/10) "RTX 3090" 10 =
      Except.ok ⟨7/2, 7/20, 7/20⟩ := by
  have h1 : calculate_cloud_cost (1/10) "RTX 3090" 10 =
      Except.ok ⟨350 * 10 / 1000, 350 * 10 / 1000 * (1/10), 9/5 * 10,
        350 * 10 / 1000 * (1/10) + 9/5 * 10⟩ :=
    calculate_cloud_cost_db_ok
      (show lookup_gpu GPU_DATABASE "RTX 3090" = some ⟨350, 9/5⟩ from rfl)
      (by norm_num) (by norm_num)
  have h2 : calculate_local_cost (1/10) "RTX 3090" 10 =
      Except.ok ⟨350 * 10 / 1000, 350 * 10 / 1000 * (1/10),
        350 * 10 / 1000 * (1/10)⟩ :=
    calculate_local_cost_db_ok
      (show lookup_gpu GPU_DATABASE "RTX 3090" = some ⟨350, 9/5⟩ from rfl)
      (by norm_num) (by norm_num)
  rw [h1, h2]
  norm_num [CloudCostBreakdown.mk.injEq, LocalCostBreakdown.mk.injEq]

/-- A negative electricity cost is rejected first, with its message. -/
theorem validate_inputs_neg_price {p h : ℚ} (hp : p < 0) :
    validate_inputs p h =
      Except.error (WattError.InvalidInputError "Electricity cost cannot be negative") := by
  unfold validate_inputs
  rw [if_pos hp]

/-- Negative hours are rejected when the electricity cost is non-negative. -/
theorem validate_inputs_neg_hours {p h : ℚ} (hp : 0 ≤ p) (hh : h < 0) :
    validate_inputs p h =
      Except.error (WattError.InvalidInputError "Hours cannot be negative") := by
  unfold validate_inputs
  rw [if_neg (not_lt.mpr hp), if_pos hh]

/-- `validate_inputs` signals `InvalidInputError` exactly when the electricity
cost or the hours are negative. -/
theorem validate_invalid_iff (p h : ℚ) :
    (∃ msg, validate_inputs p h =
        Except.error (WattError.InvalidInputError msg)) ↔ p < 0 ∨ h < 0 := by
  constructor
  · rintro ⟨msg, hmsg⟩
    by_contra hcon
    push_neg at hcon
    rw [validate_inputs_ok hcon.1 hcon.2] at hmsg
    simp at hmsg
  · rintro (hp | hh)
    · exact ⟨_, validate_inputs_neg_price hp⟩
    · by_cases hp0 : p < 0
      · exact ⟨_, validate_inputs_neg_price hp0⟩
      · exact ⟨_, validate_inputs_neg_hours (not_lt.mp hp0) hh⟩

/-- The cloud computation signals `InvalidInputError` exactly when the
electricity cost or the hours are negative. -/
theorem cloud_invalid_iff (db : List (String × GPURecord)) (p g h) :
    (∃ msg, calculate_cloud_cost_db db p g h =
        Except.error (WattError.InvalidInputError msg)) ↔ p < 0 ∨ h < 0 := by
  constructor
  · rintro ⟨msg, hmsg⟩
    by_contra hcon
    push_neg at hcon
    unfold calculate_cloud_cost_db at hmsg
    rw [validate_inputs_ok hcon.1 hcon.2] at hmsg
    cases hlk : lookup_gpu db g with
    | none => rw [hlk] at hmsg; simp at hmsg
    | some rec => rw [hlk] at hmsg; simp at hmsg
  · intro hbad
    obtain ⟨msg, hmsg⟩ := (validate_invalid_iff p h).mpr hbad
    exact ⟨msg, by unfold calculate_cloud_cost_db; rw [hmsg]⟩

/-- The local computation signals `InvalidInputError` exactly when the
electricity cost or the hours are negative. -/
theorem local_invalid_iff (db : List (String × GPURecord)) (p g h) :
    (∃ msg, calculate_local_cost_db db p g h =
        Except.error (WattError.InvalidInputError msg)) ↔ p < 0 ∨ h < 0 := by
  constructor
  · rintro ⟨msg, hmsg⟩
    by_contra hcon
    push_neg at hcon
    unfold calculate_local_cost_db at hmsg
    rw [validate_inputs_ok hcon.1 hcon.2] at hmsg
    cases hlk : lookup_gpu db g with
    | none => rw [hlk] at hmsg; simp at hmsg
    | some rec => rw [hlk] at hmsg; simp at hmsg
  · intro hbad
    obtain ⟨msg, hmsg⟩ := (validate_invalid_iff p h).mpr hbad
    exact ⟨msg, by unfold calculate_local_cost_db; rw [hmsg]⟩

/-- Claim C5: for every gpu id absent from the catalog (and validated inputs,
the spec's precondition), both computations fail with `GPUNotFoundError`
carrying the offending id and the list of valid catalog ids. -/
theorem claim_C5 (p h : ℚ) (g : String)
    (hg : lookup_gpu GPU_DATABASE g = none) (hp : 0 ≤ p) (hh : 0 ≤ h) :
    calculate_cloud_cost p g h =
      Except.error (WattError.GPUNotFoundError g ["RTX 3090", "A100", "RTX 4090"]) ∧
    calculate_local_cost p g h =
      Except.error (WattError.GPUNotFoundError g ["RTX 3090", "A100", "RTX 4090"]) := by
  constructor
  · unfold calculate_cloud_cost calculate_cloud_cost_db
    rw [validate_inputs_ok hp hh, hg]
    rfl
  · unfold calculate_local_cost calculate_local_cost_db
    rw [validate_inputs_ok hp hh, hg]
    rfl

/-- Witness for C5 at the spec's example id "nonexistent-gpu", price 0.10,
5 hours. -/
theorem claim_C5_witness :
    calculate_cloud_cost (1/10) "nonexistent-gpu" 5 =
      Except.error (WattError.GPUNotFoundError "nonexistent-gpu"
        ["RTX 3090", "A100", "RTX 4090"]) ∧
    calculate_local_cost (1/10) "nonexistent-gpu" 5 =
      Except.error (WattError.GPUNotFoundError "nonexistent-gpu"
        ["RTX 3090", "A100", "RTX 4090"]) :=
  claim_C5 (1/10) 5 "nonexistent-gpu" rfl (by norm_num) (by norm_num)

/-- Claim C6: validation and both cost computations fail with
`InvalidInputError` exactly when the electricity cost or the hours are
negative; in particular `calculate_local_cost (-0.01) "RTX 3090" 5` fails so.
(Side-effect freedom is by construction: the embedded functions are pure.) -/
theorem claim_C6 (p h : ℚ) (g : String) :
    ((∃ msg, validate_inputs p h =
        Except.error (WattError.InvalidInputError msg)) ↔ p < 0 ∨ h < 0) ∧
    ((∃ msg, calculate_cloud_cost p g h =
        Except.error (WattError.InvalidInputError msg)) ↔ p < 0 ∨ h < 0) ∧
    ((∃ msg, calculate_local_cost p g h =
        Except.error (WattError.InvalidInputError msg)) ↔ p < 0 ∨ h < 0) ∧
    calculate_local_cost (-1/100) "RTX 3090" 5 =
      Except.error (WattError.InvalidInputError "Electricity cost cannot be negative") := by
  refine ⟨validate_invalid_iff p h, cloud_invalid_iff GPU_DATABASE p g h,
    local_invalid_iff GPU_DATABASE p g h, ?_⟩
  unfold calculate_local_cost calculate_local_cost_db
  rw [validate_inputs_neg_price (by norm_num : (-1/100 : ℚ) < 0)]

/-- Claim C10: validation runs before the catalog lookup: for a gpu id absent
from the catalog and a negative electricity cost or negative hours, both
computations fail with `InvalidInputError`, not `GPUNotFoundError`. -/
theorem claim_C10 (p h : ℚ) (g : String)
    (_hg : lookup_gpu GPU_DATABASE g = none) (hbad : p < 0 ∨ h < 0) :
    (∃ msg, calculate_cloud_cost p g h =
        Except.error (WattError.InvalidInputError msg)) ∧
    (∃ msg, calculate_local_cost p g h =
        Except.error (WattError.InvalidInputError msg)) :=
  ⟨(cloud_invalid_iff GPU_DATABASE p g h).mpr hbad,
   (local_invalid_iff GPU_DATABASE p g h).mpr hbad⟩

/-- Witness for C10 at the absent id "nonexistent-gpu", price -1, 5 hours. -/
theorem claim_C10_witness :
    (∃ msg, calculate_cloud_cost (-1) "nonexistent-gpu" 5 =
        Except.error (WattError.InvalidInputError msg)) ∧
    (∃ msg, calculate_local_cost (-1) "nonexistent-gpu" 5 =
        Except.error (WattError.InvalidInputError msg)) :=
  claim_C10 (-1) 5 "nonexistent-gpu" rfl (Or.inl (by norm_num))

/-- One scan iteration equals folding the comparison step over the (at most
two) options the entry contributes. -/
theorem scan_step_eq_foldl (db : List (String × GPURecord)) (p h : ℚ)
    (acc : Option (String × ℚ)) (e : String × GPURecord) :
    scan_step db p h acc e =
      List.foldl consider_option acc (entry_options db p h e) := by
  unfold scan_step entry_options
  cases hc : calculate_cloud_cost_db db p e.1 h with
  | error err => cases hl : calculate_local_cost_db db p e.1 h <;> rfl
  | ok c =>
    cases hl : calculate_local_cost_db db p e.1 h with
    | error err => rfl
    | ok l => rfl

/-- The whole scan fold equals folding the comparison step over the flattened
option list, from any accumulator. -/
theorem scan_foldl_eq (db : List (String × GPURecord)) (p h : ℚ) :
    ∀ (rem : List (String × GPURecord)) (acc : Option (String × ℚ)),
      List.foldl (scan_step db p h) acc rem =
        List.foldl consider_option acc (scan_options_aux db rem p h) := by
  intro rem
  induction rem with
  | nil => intro acc; rfl
  | cons e rest ih =>
    intro acc
    rw [List.foldl_cons, ih,
      show scan_options_aux db (e :: rest) p h =
        entry_options db p h e ++ scan_options_aux db rest p h from rfl,
      List.foldl_append, scan_step_eq_foldl]

/-- Folding the comparison step from accumulator `a` yields a result that is a
minimum of `a` and the list, is `a` itself unless some list element is
strictly cheaper, and in the latter case is the first element strictly cheaper
than everything before it. -/
theorem consider_foldl_char (l : List (String × ℚ)) :
    ∀ a : String × ℚ,
    ∃ r, List.foldl consider_option (some a) l = some r ∧ r.2 ≤ a.2 ∧
      (∀ o ∈ l, r.2 ≤ o.2) ∧
      (r = a ∨ ∃ pre post, l = pre ++ r :: post ∧ r.2 < a.2 ∧
        ∀ o ∈ pre, r.2 < o.2) := by
  induction l with
  | nil =>
    intro a
    exact ⟨a, rfl, le_refl _, by simp, Or.inl rfl⟩
  | cons o rest ih =>
    intro a
    by_cases hlt : o.2 < a.2
    · obtain ⟨r, hfold, hle, hall, hdisj⟩ := ih o
      refine ⟨r, ?_, hle.trans hlt.le, ?_, Or.inr ?_⟩
      · rw [List.foldl_cons,
          show consider_option (some a) o = some o by simp [consider_option, hlt]]
        exact hfold
      · intro x hx
        rcases List.mem_cons.mp hx with h1 | h1
        · rw [h1]; exact hle
        · exact hall x h1
      · rcases hdisj with h1 | ⟨pre, post, hsplit, hra, hpre⟩
        · exact ⟨[], rest, by rw [h1]; rfl, by rw [h1]; exact hlt, by simp⟩
        · refine ⟨o :: pre, post, ?_, hra.trans hlt, ?_⟩
          · rw [hsplit]; rfl
          · intro x hx
            rcases List.mem_cons.mp hx with h1 | h1
            · rw [h1]; exact hra
            · exact hpre x h1
    · obtain ⟨r, hfold, hle, hall, hdisj⟩ := ih a
      have hao : a.2 ≤ o.2 := not_lt.mp hlt
      refine ⟨r, ?_, hle, ?_, ?_⟩
      · rw [List.foldl_cons,
          show consider_option (some a) o = some a by simp [consider_option, hlt]]
        exact hfold
      · intro x hx
        rcases List.mem_cons.mp hx with h1 | h1
        · rw [h1]; exact hle.trans hao
        · exact hall x h1
      · rcases hdisj with h1 | ⟨pre, post, hsplit, hra, hpre⟩
        · exact Or.inl h1
        · refine Or.inr ⟨o :: pre, post, ?_, hra, ?_⟩
          · rw [hsplit]; rfl
          · intro x hx
            rcases List.mem_cons.mp hx with h1 | h1
            · rw [h1]; exact hra.trans_le hao
            · exact hpre x h1

/-- Folding the comparison step from an empty accumulator over a non-empty
list returns the first element attaining the minimum price: it is a global
minimum and everything encountered before it is strictly more expensive. -/
theorem consider_foldl_none_char (l : List (String × ℚ)) (hne : l ≠ []) :
    ∃ r, List.foldl consider_option none l = some r ∧
      (∃ pre post, l = pre ++ r :: post ∧ ∀ o ∈ pre, r.2 < o.2) ∧
      ∀ o ∈ l, r.2 ≤ o.2 := by
  cases l with
  | nil => exact absurd rfl hne
  | cons x xs =>
    obtain ⟨r, hfold, hle, hall, hdisj⟩ := consider_foldl_char xs x
    refine ⟨r, ?_, ?_, ?_⟩
    · rw [List.foldl_cons]
      exact hfold
    · rcases hdisj with h1 | ⟨pre, post, hsplit, hra, hpre⟩
      · exact ⟨[], xs, by rw [h1]; rfl, by simp⟩
      · refine ⟨x :: pre, post, ?_, ?_⟩
        · rw [hsplit]; rfl
        · intro o ho
          rcases List.mem_cons.mp ho with h2 | h2
          · rw [h2]; exact hra
          · exact hpre o h2
    · intro o ho
      rcases List.mem_cons.mp ho with h2 | h2
      · rw [h2]; exact hle
      · exact hall o h2

/-- Looking up the key of the head entry returns the head record. -/
theorem lookup_gpu_head (e : String × GPURecord)
    (rest : List (String × GPURecord)) :
    lookup_gpu (e :: rest) e.1 = some e.2 := by
  unfold lookup_gpu
  rw [List.find?_cons_of_pos rest (by simp)]
  rfl

/-- Looking up the key of any catalog entry hits some record. -/
theorem lookup_gpu_of_mem {db : List (String × GPURecord)}
    {e : String × GPURecord} (he : e ∈ db) :
    ∃ rec, lookup_gpu db e.1 = some rec := by
  have hs : (db.find? (fun x => x.1 == e.1)).isSome := by
    rw [List.find?_isSome]
    exact ⟨e, he, by simp⟩
  obtain ⟨x, hx⟩ := Option.isSome_iff_exists.mp hs
  exact ⟨x.2, by unfold lookup_gpu; rw [hx]; rfl⟩

/-- When both computations of an entry succeed, the entry contributes its
cloud option then its local option. -/
theorem entry_options_ok {db : List (String × GPURecord)} {p h : ℚ}
    {e : String × GPURecord} {c : CloudCostBreakdown} {l : LocalCostBreakdown}
    (hc : calculate_cloud_cost_db db p e.1 h = Except.ok c)
    (hl : calculate_local_cost_db db p e.1 h = Except.ok l) :
    entry_options db p h e =
      [(cloud_label e.1, c.total_cost_usd),
       (local_label e.1, l.total_cost_usd)] := by
  unfold entry_options
  rw [hc, hl]

/-- Both options of a successfully computed entry appear in the option list. -/
theorem mem_scan_options_aux {db : List (String × GPURecord)} (p h : ℚ) :
    ∀ (rem : List (String × GPURecord)) (e : String × GPURecord), e ∈ rem →
      ∀ (c : CloudCostBreakdown) (l : LocalCostBreakdown),
        calculate_cloud_cost_db db p e.1 h = Except.ok c →
        calculate_local_cost_db db p e.1 h = Except.ok l →
        (cloud_label e.1, c.total_cost_usd) ∈ scan_options_aux db rem p h ∧
        (local_label e.1, l.total_cost_usd) ∈ scan_options_aux db rem p h := by
  intro rem
  induction rem with
  | nil => intro e he; exact absurd he (List.not_mem_nil e)
  | cons x rest ih =>
    intro e he c l hc hl
    have haux : scan_options_aux db (x :: rest) p h =
        entry_options db p h x ++ scan_options_aux db rest p h := rfl
    rcases List.mem_cons.mp he with h1 | h1
    · subst h1
      rw [haux, entry_options_ok hc hl]
      exact ⟨List.mem_append_left _ (List.mem_cons_self _ _),
        List.mem_append_left _ (List.mem_cons_of_mem _ (List.mem_cons_self _ _))⟩
    · obtain ⟨hm1, hm2⟩ := ih e h1 c l hc hl
      rw [haux]
      exact ⟨List.mem_append_right _ hm1, List.mem_append_right _ hm2⟩

/-- Claim C4: for valid inputs, the cheapest-option scan returns `none` on an
empty catalog; on a non-empty catalog it returns a (label, price) pair that
appears in the option list (catalog iteration order, cloud before local per
GPU), whose price is a global minimum of the total costs of every
(mode, GPU) pair, and every option encountered before it is strictly more
expensive — so on an exact tie the first-encountered option wins. -/
theorem claim_C4 (db : List (String × GPURecord)) (p h : ℚ)
    (hp : 0 ≤ p) (hh : 0 ≤ h) :
    (db = [] → find_cheapest_option_db db p h = none) ∧
    (db ≠ [] → ∃ lab pr,
      find_cheapest_option_db db p h = some (lab, pr) ∧
      (∃ pre post, scan_options db p h = pre ++ (lab, pr) :: post ∧
        ∀ o ∈ pre, pr < o.2) ∧
      (∀ o ∈ scan_options db p h, pr ≤ o.2) ∧
      (∀ e ∈ db, ∃ c l,
        calculate_cloud_cost_db db p e.1 h = Except.ok c ∧
        calculate_local_cost_db db p e.1 h = Except.ok l ∧
        pr ≤ c.total_cost_usd ∧ pr ≤ l.total_cost_usd)) := by
  constructor
  · intro hdb
    subst hdb
    rfl
  · intro hdb
    obtain ⟨e, rest, rfl⟩ := List.exists_cons_of_ne_nil hdb
    have hfold : find_cheapest_option_db (e :: rest) p h =
        List.foldl consider_option none (scan_options (e :: rest) p h) := by
      unfold find_cheapest_option_db
      rw [if_neg (by simp)]
      exact scan_foldl_eq (e :: rest) p h (e :: rest) none
    have hlk : lookup_gpu (e :: rest) e.1 = some e.2 := lookup_gpu_head e rest
    have hc0 := calculate_cloud_cost_db_ok hlk hp hh
    have hl0 := calculate_local_cost_db_ok hlk hp hh
    have hne : scan_options (e :: rest) p h ≠ [] := by
      unfold scan_options
      rw [show scan_options_aux (e :: rest) (e :: rest) p h =
          entry_options (e :: rest) p h e ++
            scan_options_aux (e :: rest) rest p h from rfl,
        entry_options_ok hc0 hl0]
      simp
    obtain ⟨r, hr, ⟨pre, post, hsplit, hpre⟩, hall⟩ :=
      consider_foldl_none_char _ hne
    refine ⟨r.1, r.2, ?_, ⟨pre, post, hsplit, hpre⟩, hall, ?_⟩
    · rw [hfold, hr]
    · intro x hx
      obtain ⟨rec, hlk'⟩ := lookup_gpu_of_mem hx
      have hcx := calculate_cloud_cost_db_ok hlk' hp hh
      have hlx := calculate_local_cost_db_ok hlk' hp hh
      obtain ⟨hm1, hm2⟩ :=
        mem_scan_options_aux p h (e :: rest) x hx _ _ hcx hlx
      exact ⟨_, _, hcx, hlx, hall _ hm1, hall _ hm2⟩

/-- Witness for C4 on the concrete catalog at the 1-hour benchmark, price
0.10. -/
theorem claim_C4_witness :
    ∃ lab pr,
      find_cheapest_option_db GPU_DATABASE (1/10) 1 = some (lab, pr) ∧
      (∃ pre post, scan_options GPU_DATABASE (1/10) 1 = pre ++ (lab, pr) :: post ∧
        ∀ o ∈ pre, pr < o.2) ∧
      (∀ o ∈ scan_options GPU_DATABASE (1/10) 1, pr ≤ o.2) ∧
      (∀ e ∈ GPU_DATABASE, ∃ c l,
        calculate_cloud_cost_db GPU_DATABASE (1/10) e.1 1 = Except.ok c ∧
        calculate_local_cost_db GPU_DATABASE (1/10) e.1 1 = Except.ok l ∧
        pr ≤ c.total_cost_usd ∧ pr ≤ l.total_cost_usd) :=
  (claim_C4 GPU_DATABASE (1/10) 1 (by norm_num) (by norm_num)).2
    (by simp [GPU_DATABASE])
